import Mathlib

/-!
Verification of the key-to-action dispatcher in `src/assets/app_js.js`.

The script registers one global `keydown` listener, `clickButtonFunction`,
which inspects `event.key` in four independent `if` statements and, for each
of the four arrow-key names, calls `document.getElementById(id).click()` on
the correspondingly identified element.

Shallow embedding: the document is modelled by the list of element
identifiers it currently exposes; `getElementById` returns `some id` when the
element is present and `none` (JavaScript `null`) otherwise.  Dereferencing
`null` (calling `.click()` on an absent element) throws a `TypeError`, which
aborts the remainder of the handler body.  A handler run is therefore a pair:
the list of element ids clicked, in order, and an optional thrown error.
-/

namespace ImageSelector

/-- A `keydown` event as delivered by the host.  The script reads only the
`key` field; the remaining fields model the other observable parts of a DOM
keyboard event (modifier flags and the auto-repeat flag). -/
structure KeyboardEvent where
  key : String
  ctrlKey : Bool
  shiftKey : Bool
  altKey : Bool
  metaKey : Bool
  isRepeat : Bool
deriving DecidableEq

/-- The live document, modelled by the list of element identifiers present. -/
structure Document where
  present : List String
deriving DecidableEq

/-- `document.getElementById(id)`: a handle on the element when one with this
identifier exists, `none` (JavaScript `null`) otherwise. -/
def Document.getElementById (doc : Document) (id : String) : Option String :=
  if id ∈ doc.present then some id else none

/-- A thrown JavaScript error.  The only one this code can raise is the
`TypeError` from calling `.click()` on the `null` result of a failed lookup. -/
inductive JSError where
  | typeError
deriving DecidableEq

/-- The observable outcome of one handler invocation: the element ids clicked,
in program order, and the error thrown (if any).  The JavaScript function
itself returns `undefined`; there is no return value to model. -/
structure HandlerResult where
  clicks : List String
  thrown : Option JSError
deriving DecidableEq

/-- One statement `if (event.key == k) { document.getElementById(id).click(); }`
of the handler body, sequenced after the statements already executed (`acc`).
An error thrown earlier aborts the body, so the statement is skipped; a failed
lookup followed by `.click()` throws a `TypeError`. -/
def clickStmt (doc : Document) (event : KeyboardEvent) (k id : String)
    (acc : HandlerResult) : HandlerResult :=
  match acc.thrown with
  | some e => ⟨acc.clicks, some e⟩
  | none =>
    if event.key = k then
      match doc.getElementById id with
      | some _ => ⟨acc.clicks ++ [id], none⟩
      | none => ⟨acc.clicks, some JSError.typeError⟩
    else ⟨acc.clicks, none⟩

/-- `clickButtonFunction` from `src/assets/app_js.js`: four independent
`if` statements, in source order, each mapping one arrow-key name to a click
on one fixed element identifier. -/
def clickButtonFunction (doc : Document) (event : KeyboardEvent) :
    HandlerResult :=
  clickStmt doc event "ArrowDown" "move-down"
    (clickStmt doc event "ArrowUp" "move-up"
      (clickStmt doc event "ArrowRight" "move-right"
        (clickStmt doc event "ArrowLeft" "move-left" ⟨[], none⟩)))

/-- The four key-to-identifier bindings, in the order they appear in the
handler body. -/
def arrowBindings : List (String × String) :=
  [("ArrowLeft", "move-left"), ("ArrowRight", "move-right"),
   ("ArrowUp", "move-up"), ("ArrowDown", "move-down")]

/-- The four recognized key names. -/
def recognizedKeys : List String :=
  ["ArrowLeft", "ArrowRight", "ArrowUp", "ArrowDown"]

/-- The identifier the handler targets for a given key name, `none` for an
unrecognized key.  Derived from the four `if` statements of the source. -/
def targetOf (key : String) : Option String :=
  if key = "ArrowLeft" then some "move-left"
  else if key = "ArrowRight" then some "move-right"
  else if key = "ArrowUp" then some "move-up"
  else if key = "ArrowDown" then some "move-down"
  else none

/-- Position (1-based) of the `if` statement guarded by this key in the
handler body; 0 for an unrecognized key. -/
def stmtIndex (key : String) : Nat :=
  if key = "ArrowLeft" then 1
  else if key = "ArrowRight" then 2
  else if key = "ArrowUp" then 3
  else if key = "ArrowDown" then 4
  else 0

/-- The clicks performed by one invocation of the handler. -/
def activationsOf (doc : Document) (ev : KeyboardEvent) : List String :=
  (clickButtonFunction doc ev).clicks

/-- `document.addEventListener(type, fn)`: appends the binding to the
registration list unless the identical binding is already registered (the DOM
deduplicates identical listener registrations). -/
def addEventListener (regs : List (String × String)) (type fn : String) :
    List (String × String) :=
  if (type, fn) ∈ regs then regs else regs ++ [(type, fn)]

/-- Line 1 of the script:
`document.addEventListener("keydown", clickButtonFunction)`, executed once at
script load. -/
def scriptLoad (regs : List (String × String)) : List (String × String) :=
  addEventListener regs "keydown" "clickButtonFunction"

/-- The page-level state: the listener registrations, the document, the log of
all activations so far, and the error (if any) escaping the most recent
delivery. -/
structure PageState where
  regs : List (String × String)
  doc : Document
  log : List String
  err : Option JSError
deriving DecidableEq

/-- Delivery of one `keydown` event: if the script's listener is registered,
its handler runs; its clicks are appended to the activation log and any error
it throws escapes to the host (which reports it without deregistering the
listener).  No registration or document change occurs. -/
def deliverKeydown (s : PageState) (ev : KeyboardEvent) : PageState :=
  if ("keydown", "clickButtonFunction") ∈ s.regs then
    ⟨s.regs, s.doc, s.log ++ (clickButtonFunction s.doc ev).clicks,
      (clickButtonFunction s.doc ev).thrown⟩
  else ⟨s.regs, s.doc, s.log, none⟩

/-- Deliver a finite sequence of `keydown` events, one at a time, in order. -/
def run (s : PageState) (evs : List KeyboardEvent) : PageState :=
  evs.foldl deliverKeydown s

/-- The page state right after script load against a given document. -/
def initialState (doc : Document) : PageState :=
  ⟨scriptLoad [], doc, [], none⟩

/-- The effects one delivery adds on top of a state: the freshly appended
activations and the escaping error. -/
def stepEffects (s : PageState) (ev : KeyboardEvent) :
    List String × Option JSError :=
  ((deliverKeydown s ev).log.drop s.log.length, (deliverKeydown s ev).err)

/-- An instrumented handler run: additionally counts the string comparisons
and element lookups performed. -/
structure Trace where
  comparisons : Nat
  lookups : Nat
  clicks : List String
  thrown : Option JSError
deriving DecidableEq

/-- Instrumented version of one handler statement: counts the key comparison
and, when the guard holds, the element lookup. -/
def clickStmtTraced (doc : Document) (event : KeyboardEvent) (k id : String)
    (acc : Trace) : Trace :=
  match acc.thrown with
  | some e => ⟨acc.comparisons, acc.lookups, acc.clicks, some e⟩
  | none =>
    if event.key = k then
      match doc.getElementById id with
      | some _ => ⟨acc.comparisons + 1, acc.lookups + 1, acc.clicks ++ [id], none⟩
      | none =>
        ⟨acc.comparisons + 1, acc.lookups + 1, acc.clicks, some JSError.typeError⟩
    else ⟨acc.comparisons + 1, acc.lookups, acc.clicks, none⟩

/-- Instrumented version of `clickButtonFunction`: same four statements, in
the same order, with operation counts. -/
def clickButtonFunctionTraced (doc : Document) (event : KeyboardEvent) :
    Trace :=
  clickStmtTraced doc event "ArrowDown" "move-down"
    (clickStmtTraced doc event "ArrowUp" "move-up"
      (clickStmtTraced doc event "ArrowRight" "move-right"
        (clickStmtTraced doc event "ArrowLeft" "move-left" ⟨0, 0, [], none⟩)))

/-! ### Characterization lemmas -/

/-- Characterization of one handler run: an unrecognized key produces nothing;
a recognized key clicks its target when present and throws a `TypeError` when
absent. -/
theorem clickButtonFunction_eq (doc : Document) (ev : KeyboardEvent) :
    clickButtonFunction doc ev =
      match targetOf ev.key with
      | none => ⟨[], none⟩
      | some id =>
        if id ∈ doc.present then ⟨[id], none⟩
        else ⟨[], some JSError.typeError⟩ := by
  by_cases h1 : ev.key = "ArrowLeft"
  · by_cases hm : "move-left" ∈ doc.present <;>
      simp [clickButtonFunction, clickStmt, Document.getElementById, targetOf,
        h1, hm]
  · by_cases h2 : ev.key = "ArrowRight"
    · by_cases hm : "move-right" ∈ doc.present <;>
        simp [clickButtonFunction, clickStmt, Document.getElementById, targetOf,
          h1, h2, hm]
    · by_cases h3 : ev.key = "ArrowUp"
      · by_cases hm : "move-up" ∈ doc.present <;>
          simp [clickButtonFunction, clickStmt, Document.getElementById,
            targetOf, h1, h2, h3, hm]
      · by_cases h4 : ev.key = "ArrowDown"
        · by_cases hm : "move-down" ∈ doc.present <;>
            simp [clickButtonFunction, clickStmt, Document.getElementById,
              targetOf, h1, h2, h3, h4, hm]
        · simp [clickButtonFunction, clickStmt, Document.getElementById,
            targetOf, h1, h2, h3, h4]

/-- Characterization of one instrumented run: the operation counts follow the
same case split, with the comparison count cut short at the throwing
statement. -/
theorem clickButtonFunctionTraced_eq (doc : Document) (ev : KeyboardEvent) :
    clickButtonFunctionTraced doc ev =
      match targetOf ev.key with
      | none => ⟨4, 0, [], none⟩
      | some id =>
        if id ∈ doc.present then ⟨4, 1, [id], none⟩
        else ⟨stmtIndex ev.key, 1, [], some JSError.typeError⟩ := by
  by_cases h1 : ev.key = "ArrowLeft"
  · by_cases hm : "move-left" ∈ doc.present <;>
      simp [clickButtonFunctionTraced, clickStmtTraced, Document.getElementById,
        targetOf, stmtIndex, h1, hm]
  · by_cases h2 : ev.key = "ArrowRight"
    · by_cases hm : "move-right" ∈ doc.present <;>
        simp [clickButtonFunctionTraced, clickStmtTraced,
          Document.getElementById, targetOf, stmtIndex, h1, h2, hm]
    · by_cases h3 : ev.key = "ArrowUp"
      · by_cases hm : "move-up" ∈ doc.present <;>
          simp [clickButtonFunctionTraced, clickStmtTraced,
            Document.getElementById, targetOf, stmtIndex, h1, h2, h3, hm]
      · by_cases h4 : ev.key = "ArrowDown"
        · by_cases hm : "move-down" ∈ doc.present <;>
            simp [clickButtonFunctionTraced, clickStmtTraced,
              Document.getElementById, targetOf, stmtIndex, h1, h2, h3, h4, hm]
        · simp [clickButtonFunctionTraced, clickStmtTraced,
            Document.getElementById, targetOf, stmtIndex, h1, h2, h3, h4]

/-- A key outside the recognized set has no target. -/
theorem targetOf_eq_none (key : String) (h : key ∉ recognizedKeys) :
    targetOf key = none := by
  simp only [recognizedKeys, List.mem_cons, List.not_mem_nil, or_false,
    not_or] at h
  simp [targetOf, h.1, h.2.1, h.2.2.1, h.2.2.2]

/-- Each binding of the dispatch table maps its key to its identifier. -/
theorem targetOf_of_mem (k id : String) (h : (k, id) ∈ arrowBindings) :
    targetOf k = some id := by
  simp only [arrowBindings, List.mem_cons, List.not_mem_nil, or_false,
    Prod.mk.injEq] at h
  rcases h with ⟨hk, hid⟩ | ⟨hk, hid⟩ | ⟨hk, hid⟩ | ⟨hk, hid⟩ <;>
    subst hk <;> subst hid <;> simp [targetOf]

/-- Event delivery never changes the registration list. -/
theorem deliverKeydown_regs (s : PageState) (ev : KeyboardEvent) :
    (deliverKeydown s ev).regs = s.regs := by
  unfold deliverKeydown
  split <;> rfl

/-- Event delivery never changes the document. -/
theorem deliverKeydown_doc (s : PageState) (ev : KeyboardEvent) :
    (deliverKeydown s ev).doc = s.doc := by
  unfold deliverKeydown
  split <;> rfl

/-- With the script's listener registered, a delivery appends exactly the
handler's clicks to the log. -/
theorem deliverKeydown_log (s : PageState) (ev : KeyboardEvent)
    (h : ("keydown", "clickButtonFunction") ∈ s.regs) :
    (deliverKeydown s ev).log = s.log ++ activationsOf s.doc ev := by
  unfold deliverKeydown
  rw [if_pos h]
  rfl

/-- With the script's listener registered, the escaping error of a delivery is
the handler's thrown error. -/
theorem deliverKeydown_err (s : PageState) (ev : KeyboardEvent)
    (h : ("keydown", "clickButtonFunction") ∈ s.regs) :
    (deliverKeydown s ev).err = (clickButtonFunction s.doc ev).thrown := by
  unfold deliverKeydown
  rw [if_pos h]

/-- The script's listener is registered in the state produced by script load. -/
theorem mem_scriptLoad :
    ("keydown", "clickButtonFunction") ∈ scriptLoad [] := by decide

/-- Running a sequence of events preserves the registration list. -/
theorem run_regs (evs : List KeyboardEvent) :
    ∀ s : PageState, (run s evs).regs = s.regs := by
  induction evs with
  | nil => intro s; rfl
  | cons ev rest ih =>
    intro s
    have hstep : run s (ev :: rest) = run (deliverKeydown s ev) rest := rfl
    rw [hstep, ih (deliverKeydown s ev), deliverKeydown_regs]

/-- Running a sequence of events preserves the document. -/
theorem run_doc (evs : List KeyboardEvent) :
    ∀ s : PageState, (run s evs).doc = s.doc := by
  induction evs with
  | nil => intro s; rfl
  | cons ev rest ih =>
    intro s
    have hstep : run s (ev :: rest) = run (deliverKeydown s ev) rest := rfl
    rw [hstep, ih (deliverKeydown s ev), deliverKeydown_doc]

/-- With the script's listener registered, running a sequence of events
appends, in arrival order, the activations each event produces on its own. -/
theorem run_log (evs : List KeyboardEvent) :
    ∀ s : PageState, ("keydown", "clickButtonFunction") ∈ s.regs →
      (run s evs).log = s.log ++ (evs.map (activationsOf s.doc)).flatten := by
  induction evs with
  | nil => intro s _; simp [run]
  | cons ev rest ih =>
    intro s h
    have hstep : run s (ev :: rest) = run (deliverKeydown s ev) rest := rfl
    have hmem : ("keydown", "clickButtonFunction") ∈ (deliverKeydown s ev).regs := by
      rw [deliverKeydown_regs]; exact h
    rw [hstep, ih (deliverKeydown s ev) hmem, deliverKeydown_log s ev h,
      deliverKeydown_doc, List.map_cons, List.flatten_cons, List.append_assoc]

/-- With the script's listener registered, the effects a delivery adds are
exactly the handler's activations and its thrown error, computed from the
current document alone. -/
theorem stepEffects_eq (s : PageState) (ev : KeyboardEvent)
    (h : ("keydown", "clickButtonFunction") ∈ s.regs) :
    stepEffects s ev =
      (activationsOf s.doc ev, (clickButtonFunction s.doc ev).thrown) := by
  unfold stepEffects
  rw [deliverKeydown_log s ev h, deliverKeydown_err s ev h,
    List.drop_left s.log (activationsOf s.doc ev)]

/-- A recognized key whose target is present produces exactly the one click on
that target. -/
theorem activationsOf_eq_target (doc : Document) (ev : KeyboardEvent)
    (k id : String) (hk : (k, id) ∈ arrowBindings) (hkey : ev.key = k)
    (hp : id ∈ doc.present) : activationsOf doc ev = [id] := by
  unfold activationsOf
  rw [clickButtonFunction_eq, hkey, targetOf_of_mem k id hk]
  simp [hp]

/-- The statement position of any key is at most 4. -/
theorem stmtIndex_le_four (key : String) : stmtIndex key ≤ 4 := by
  unfold stmtIndex
  split_ifs <;> omega

/-! ### Claim theorems -/

/-- C1: for every keydown event whose key is one of the four recognized arrow
names, if the corresponding target element exists, `clickButtonFunction`
performs exactly one click, on exactly the element with the corresponding
identifier, and raises no error. -/
theorem arrow_key_clicks_exactly_its_target (doc : Document)
    (ev : KeyboardEvent) (k id : String) (hk : (k, id) ∈ arrowBindings)
    (hkey : ev.key = k) (hpres : id ∈ doc.present) :
    clickButtonFunction doc ev = ⟨[id], none⟩ := by
  rw [clickButtonFunction_eq, hkey, targetOf_of_mem k id hk]
  simp [hpres]

/-- Witness for C1: pressing ArrowLeft with the "move-left" element present
clicks exactly "move-left". -/
theorem arrow_key_clicks_exactly_its_target_witness :
    ("ArrowLeft", "move-left") ∈ arrowBindings ∧
    (KeyboardEvent.mk "ArrowLeft" false false false false false).key =
      "ArrowLeft" ∧
    "move-left" ∈ (Document.mk ["move-left"]).present ∧
    clickButtonFunction (Document.mk ["move-left"])
        (KeyboardEvent.mk "ArrowLeft" false false false false false) =
      ⟨["move-left"], none⟩ :=
  ⟨by decide, rfl, by decide,
    arrow_key_clicks_exactly_its_target (Document.mk ["move-left"])
      (KeyboardEvent.mk "ArrowLeft" false false false false false)
      "ArrowLeft" "move-left" (by decide) rfl (by decide)⟩

/-- C2 counterexample: pressing ArrowLeft against a document with no elements
does NOT leave the handler error-free — the null lookup result is clicked and
a TypeError is raised, contradicting the claimed silent no-op. -/
theorem missing_target_silent_noop_counterexample :
    ¬ (clickButtonFunction (Document.mk [])
        (KeyboardEvent.mk "ArrowLeft" false false false false false)).thrown
      = none := by decide

/-- C2 amended: for a recognized key whose target element is absent, the
handler performs no click and raises a TypeError; the error does not
deregister the listener or change the document, and a subsequent delivery
still produces its normal effects. -/
theorem missing_target_raises_typeError (doc : Document) (ev : KeyboardEvent)
    (k id : String) (s : PageState) (ev' : KeyboardEvent)
    (hk : (k, id) ∈ arrowBindings) (hkey : ev.key = k)
    (habs : id ∉ doc.present) (hdoc : s.doc = doc)
    (hreg : ("keydown", "clickButtonFunction") ∈ s.regs) :
    clickButtonFunction doc ev = ⟨[], some JSError.typeError⟩ ∧
    (deliverKeydown s ev).regs = s.regs ∧
    (deliverKeydown s ev).doc = s.doc ∧
    stepEffects (deliverKeydown s ev) ev' =
      (activationsOf doc ev', (clickButtonFunction doc ev').thrown) := by
  refine ⟨?_, deliverKeydown_regs s ev, deliverKeydown_doc s ev, ?_⟩
  · rw [clickButtonFunction_eq, hkey, targetOf_of_mem k id hk]
    simp [habs]
  · have hreg' :
        ("keydown", "clickButtonFunction") ∈ (deliverKeydown s ev).regs := by
      rw [deliverKeydown_regs]; exact hreg
    rw [stepEffects_eq (deliverKeydown s ev) ev' hreg', deliverKeydown_doc,
      hdoc]

/-- Witness for C2 amended: ArrowLeft against an empty document throws, and
the next ArrowLeft delivery behaves normally. -/
theorem missing_target_raises_typeError_witness :
    ("ArrowLeft", "move-left") ∈ arrowBindings ∧
    "move-left" ∉ (Document.mk []).present ∧
    ("keydown", "clickButtonFunction") ∈
      (initialState (Document.mk [])).regs ∧
    clickButtonFunction (Document.mk [])
        (KeyboardEvent.mk "ArrowLeft" false false false false false) =
      ⟨[], some JSError.typeError⟩ ∧
    (deliverKeydown (initialState (Document.mk []))
        (KeyboardEvent.mk "ArrowLeft" false false false false false)).regs =
      (initialState (Document.mk [])).regs ∧
    (deliverKeydown (initialState (Document.mk []))
        (KeyboardEvent.mk "ArrowLeft" false false false false false)).doc =
      (initialState (Document.mk [])).doc ∧
    stepEffects
        (deliverKeydown (initialState (Document.mk []))
          (KeyboardEvent.mk "ArrowLeft" false false false false false))
        (KeyboardEvent.mk "ArrowLeft" false false false false false) =
      (activationsOf (Document.mk [])
          (KeyboardEvent.mk "ArrowLeft" false false false false false),
        (clickButtonFunction (Document.mk [])
            (KeyboardEvent.mk "ArrowLeft" false false false false false)).thrown) := by
  refine ⟨by decide, by decide, by decide, ?_⟩
  have h := missing_target_raises_typeError (Document.mk [])
    (KeyboardEvent.mk "ArrowLeft" false false false false false)
    "ArrowLeft" "move-left" (initialState (Document.mk []))
    (KeyboardEvent.mk "ArrowLeft" false false false false false)
    (by decide) rfl (by decide) rfl (by decide)
  exact ⟨h.1, h.2.1, h.2.2.1, h.2.2.2⟩

/-- C3: for every keydown event whose key is outside the four recognized arrow
names, the handler performs no click, raises no error, and consults no element
lookup at all. -/
theorem unrecognized_key_no_effect (doc : Document) (ev : KeyboardEvent)
    (h : ev.key ∉ recognizedKeys) :
    clickButtonFunction doc ev = ⟨[], none⟩ ∧
    (clickButtonFunctionTraced doc ev).lookups = 0 := by
  constructor
  · rw [clickButtonFunction_eq, targetOf_eq_none ev.key h]
  · rw [clickButtonFunctionTraced_eq, targetOf_eq_none ev.key h]

/-- Witness for C3: pressing "a" produces no click, no error, and no lookup. -/
theorem unrecognized_key_no_effect_witness :
    (KeyboardEvent.mk "a" false false false false false).key ∉
      recognizedKeys ∧
    (clickButtonFunction (Document.mk ["move-left"])
        (KeyboardEvent.mk "a" false false false false false) =
      ⟨[], none⟩ ∧
    (clickButtonFunctionTraced (Document.mk ["move-left"])
        (KeyboardEvent.mk "a" false false false false false)).lookups = 0) :=
  ⟨by decide,
    unrecognized_key_no_effect (Document.mk ["move-left"])
      (KeyboardEvent.mk "a" false false false false false) (by decide)⟩

/-- C4: delivering a finite sequence of keydown events produces, in arrival
order, the concatenation of the activations each event produces on its own;
in particular two recognized key presses against a document exposing both
targets produce exactly the two corresponding activations, in press order. -/
theorem deliveries_concatenate_in_order (doc : Document)
    (evs : List KeyboardEvent) (ev₁ ev₂ : KeyboardEvent)
    (k₁ id₁ k₂ id₂ : String)
    (h₁ : (k₁, id₁) ∈ arrowBindings) (h₂ : (k₂, id₂) ∈ arrowBindings)
    (hk₁ : ev₁.key = k₁) (hk₂ : ev₂.key = k₂)
    (hp₁ : id₁ ∈ doc.present) (hp₂ : id₂ ∈ doc.present) :
    (run (initialState doc) evs).log =
      (evs.map (activationsOf doc)).flatten ∧
    (run (initialState doc) [ev₁, ev₂]).log = [id₁, id₂] := by
  have hinit : ("keydown", "clickButtonFunction") ∈ (initialState doc).regs :=
    mem_scriptLoad
  constructor
  · rw [run_log evs (initialState doc) hinit]
    rfl
  · rw [run_log [ev₁, ev₂] (initialState doc) hinit]
    have hd : (initialState doc).doc = doc := rfl
    rw [hd, List.map_cons, List.map_cons, List.map_nil,
      activationsOf_eq_target doc ev₁ k₁ id₁ h₁ hk₁ hp₁,
      activationsOf_eq_target doc ev₂ k₂ id₂ h₂ hk₂ hp₂]
    rfl

/-- Witness for C4: ArrowLeft then ArrowUp against a document exposing all
four targets logs exactly ["move-left", "move-up"]. -/
theorem deliveries_concatenate_in_order_witness :
    ("ArrowLeft", "move-left") ∈ arrowBindings ∧
    ("ArrowUp", "move-up") ∈ arrowBindings ∧
    "move-left" ∈
      (Document.mk ["move-left", "move-right", "move-up", "move-down"]).present ∧
    "move-up" ∈
      (Document.mk ["move-left", "move-right", "move-up", "move-down"]).present ∧
    (run (initialState
          (Document.mk ["move-left", "move-right", "move-up", "move-down"]))
        [KeyboardEvent.mk "ArrowLeft" false false false false false,
         KeyboardEvent.mk "ArrowUp" false false false false false]).log =
      (([KeyboardEvent.mk "ArrowLeft" false false false false false,
         KeyboardEvent.mk "ArrowUp" false false false false false].map
        (activationsOf
          (Document.mk ["move-left", "move-right", "move-up", "move-down"]))).flatten) ∧
    (run (initialState
          (Document.mk ["move-left", "move-right", "move-up", "move-down"]))
        [KeyboardEvent.mk "ArrowLeft" false false false false false,
         KeyboardEvent.mk "ArrowUp" false false false false false]).log =
      ["move-left", "move-up"] := by
  have h := deliveries_concatenate_in_order
    (Document.mk ["move-left", "move-right", "move-up", "move-down"])
    [KeyboardEvent.mk "ArrowLeft" false false false false false,
     KeyboardEvent.mk "ArrowUp" false false false false false]
    (KeyboardEvent.mk "ArrowLeft" false false false false false)
    (KeyboardEvent.mk "ArrowUp" false false false false false)
    "ArrowLeft" "move-left" "ArrowUp" "move-up"
    (by decide) (by decide) rfl rfl (by decide) (by decide)
  exact ⟨by decide, by decide, by decide, by decide, h.1, h.2⟩

/-- C5: the handler is stateless and history-independent — after any two
histories of prior deliveries against the same loaded page, one further
delivery of the same event adds identical effects. -/
theorem handler_history_independent (doc : Document)
    (history₁ history₂ : List KeyboardEvent) (ev : KeyboardEvent) :
    stepEffects (run (initialState doc) history₁) ev =
      stepEffects (run (initialState doc) history₂) ev := by
  have key : ∀ hist : List KeyboardEvent,
      stepEffects (run (initialState doc) hist) ev =
        (activationsOf doc ev, (clickButtonFunction doc ev).thrown) := by
    intro hist
    have hreg : ("keydown", "clickButtonFunction") ∈
        (run (initialState doc) hist).regs := by
      rw [run_regs hist (initialState doc)]
      exact mem_scriptLoad
    rw [stepEffects_eq (run (initialState doc) hist) ev hreg,
      run_doc hist (initialState doc)]
    rfl
  rw [key history₁, key history₂]

/-- C6: a delivery reads the document but never mutates it, never changes the
registrations, and its only observable effect is appending the (possibly
empty) activations of this one event to the log. -/
theorem delivery_frame_condition (s : PageState) (ev : KeyboardEvent) :
    (deliverKeydown s ev).doc = s.doc ∧
    (deliverKeydown s ev).regs = s.regs ∧
    (deliverKeydown s ev).log = s.log ++ (stepEffects s ev).1 := by
  refine ⟨deliverKeydown_doc s ev, deliverKeydown_regs s ev, ?_⟩
  unfold stepEffects deliverKeydown
  split
  · simp
  · simp

/-- C7: script load registers the listener exactly once on the keydown
channel, and every event delivery preserves the registration list unchanged;
no step ever removes the binding. -/
theorem listener_registered_once_forever (s : PageState)
    (ev : KeyboardEvent) :
    (scriptLoad []).count ("keydown", "clickButtonFunction") = 1 ∧
    (deliverKeydown s ev).regs = s.regs ∧
    scriptLoad (scriptLoad []) = scriptLoad [] :=
  ⟨by decide, deliverKeydown_regs s ev, by decide⟩

/-- C8: although the four conditions are independent `if` statements, the four
recognized key strings are pairwise distinct, so one event matches at most one
branch: the key occurs at most once in the recognized set, and each invocation
performs at most one element lookup and at most one click. -/
theorem at_most_one_branch_fires (doc : Document) (ev : KeyboardEvent) :
    recognizedKeys.count ev.key ≤ 1 ∧
    (clickButtonFunctionTraced doc ev).lookups ≤ 1 ∧
    (clickButtonFunction doc ev).clicks.length ≤ 1 := by
  refine ⟨?_, ?_, ?_⟩
  · have hnodup : recognizedKeys.Nodup := by decide
    exact List.nodup_iff_count_le_one.mp hnodup ev.key
  · rw [clickButtonFunctionTraced_eq]
    cases htarget : targetOf ev.key with
    | none => simp
    | some id =>
      by_cases hm : id ∈ doc.present <;> simp [hm]
  · rw [clickButtonFunction_eq]
    cases htarget : targetOf ev.key with
    | none => simp
    | some id =>
      by_cases hm : id ∈ doc.present <;> simp [hm]

/-- C9: the handler's effects depend only on the event's key field — two
keydown events agreeing on `key` produce identical results regardless of
modifier flags or auto-repeat status. -/
theorem effects_depend_only_on_key (doc : Document)
    (ev₁ ev₂ : KeyboardEvent) (h : ev₁.key = ev₂.key) :
    clickButtonFunction doc ev₁ = clickButtonFunction doc ev₂ := by
  rw [clickButtonFunction_eq, clickButtonFunction_eq, h]

/-- Witness for C9: Ctrl+ArrowLeft with auto-repeat set behaves exactly like a
plain ArrowLeft press. -/
theorem effects_depend_only_on_key_witness :
    (KeyboardEvent.mk "ArrowLeft" true false false false true).key =
      (KeyboardEvent.mk "ArrowLeft" false false false false false).key ∧
    clickButtonFunction (Document.mk ["move-left"])
        (KeyboardEvent.mk "ArrowLeft" true false false false true) =
      clickButtonFunction (Document.mk ["move-left"])
        (KeyboardEvent.mk "ArrowLeft" false false false false false) :=
  ⟨rfl,
    effects_depend_only_on_key (Document.mk ["move-left"])
      (KeyboardEvent.mk "ArrowLeft" true false false false true)
      (KeyboardEvent.mk "ArrowLeft" false false false false false) rfl⟩

/-- C10: the handler is a total straight-line function: on every input it
performs at most four string comparisons, at most one element lookup, and at
most one click, and the instrumented run returns the same clicks and error as
the plain one. -/
theorem handler_straight_line_bounded (doc : Document) (ev : KeyboardEvent) :
    (clickButtonFunctionTraced doc ev).comparisons ≤ 4 ∧
    (clickButtonFunctionTraced doc ev).lookups ≤ 1 ∧
    (clickButtonFunctionTraced doc ev).clicks.length ≤ 1 ∧
    (clickButtonFunctionTraced doc ev).clicks =
      (clickButtonFunction doc ev).clicks ∧
    (clickButtonFunctionTraced doc ev).thrown =
      (clickButtonFunction doc ev).thrown := by
  rw [clickButtonFunctionTraced_eq, clickButtonFunction_eq]
  cases htarget : targetOf ev.key with
  | none => simp
  | some id =>
    by_cases hm : id ∈ doc.present <;>
      simp [hm, stmtIndex_le_four ev.key]

end ImageSelector
